import Mathlib

/-
Verification of the fraud-detection backend: a shallow embedding of the
feature extractor (feature_extractor.py), the hybrid rule/logistic scorer
(pretrained_detector.py), the stream pipeline and HTTP handlers (main.py),
and the relevant configuration defaults (config.py).

Numbers are modelled as exact rationals.  The square root used by np.std
and the trained logistic-regression model are external numeric routines;
the embedding is parametric in them (`sq` for the square root, `ml` for
`model.predict_proba(...)[0][1]`), since no verified property depends on
their values.
-/

/-- A transaction (models.py `Transaction`).  The timestamp is modelled by
its absolute time in seconds `ts` together with the derived calendar
fields `hour` (timestamp.hour) and `weekday` (timestamp.weekday()). -/
structure Transaction where
  transaction_id : String
  user_id : String
  amount : ℚ
  transaction_type : String
  merchant_id : Option String
  ip_address : Option String
  ts : ℚ
  hour : ℕ
  weekday : ℕ
deriving DecidableEq

/-- Python truthiness of an optional string (`if transaction.merchant_id:`):
both `None` and the empty string are falsy. -/
def truthy : Option String → Bool
  | none => false
  | some s => s ≠ ""

/-- Python `lst[-w:]`: the last `w` elements for `w > 0`; for `w = 0`,
`lst[-0:]` is the whole list. -/
def pyTail (w : ℕ) (l : List α) : List α :=
  if w = 0 then l else l.drop (l.length - w)

/-- The value of np.mean over a list of rationals (only applied to nonempty
lists). -/
def npMean (l : List ℚ) : ℚ := l.sum / (l.length : ℚ)

/-- Population variance, so that `np.std l = sq (npVar l)` for a square
root routine `sq`. -/
def npVar (l : List ℚ) : ℚ :=
  (l.map (fun x => (x - npMean l) ^ 2)).sum / (l.length : ℚ)

/-- The value of np.max over a nonempty list. -/
def listMax : List ℚ → ℚ
  | [] => 0
  | x :: xs => xs.foldl max x

/-- The value of np.min over a nonempty list. -/
def listMin : List ℚ → ℚ
  | [] => 0
  | x :: xs => xs.foldl min x

/-- The transaction-type encoding dictionary of `extract_features`. -/
def type_encoding (s : String) : ℚ :=
  if s = "payment" then 1
  else if s = "transfer" then 2
  else if s = "withdrawal" then 3
  else if s = "deposit" then 4
  else if s = "refund" then 5
  else 0

/-- The mutable state of `FeatureExtractor`: the window size and the three
defaultdict history mappings. -/
structure ExtractorState where
  window_size : ℕ
  user_history : String → List Transaction
  merchant_history : String → List Transaction
  ip_history : String → List Transaction

/-- A freshly constructed `FeatureExtractor(window_size := W)`. -/
def emptyState (W : ℕ) : ExtractorState :=
  ⟨W, fun _ => [], fun _ => [], fun _ => []⟩

/-- Point update of one key of a history mapping. -/
def updateKey (h : String → List Transaction) (k : String)
    (f : List Transaction → List Transaction) : String → List Transaction :=
  fun k' => if k' = k then f (h k') else h k'

/-- The config.py default `fraud_threshold: float = 0.35`. -/
def fraud_threshold_default : ℚ := 35 / 100

/-- The config.py default `feature_window: int = 100`. -/
def feature_window_default : ℕ := 100

/-- The basic transaction features of `extract_features` (amount, hour,
weekday, weekend flag, encoded type), in insertion order. -/
def baseFeats (t : Transaction) : List (String × ℚ) :=
  [("amount", t.amount),
   ("hour_of_day", (t.hour : ℚ)),
   ("day_of_week", (t.weekday : ℚ)),
   ("is_weekend", if 5 ≤ t.weekday then 1 else 0),
   ("transaction_type", type_encoding t.transaction_type)]

/-- The user-based features of `extract_features`, computed from the list
stored for `t.user_id`; the empty-history branch substitutes the current
amount and adds the extra `is_first_transaction` field. -/
def userFeats (sq : ℚ → ℚ) (W : ℕ) (user_txns : List Transaction)
    (t : Transaction) : List (String × ℚ) :=
  if user_txns.isEmpty then
    [("user_avg_amount", t.amount),
     ("user_std_amount", 0),
     ("user_max_amount", t.amount),
     ("user_min_amount", t.amount),
     ("amount_vs_avg", 1),
     ("txns_last_hour", 0),
     ("txns_last_day", 0),
     ("time_since_last_txn", 24),
     ("is_first_transaction", 1)]
  else
    let amounts := (pyTail W user_txns).map (·.amount)
    let avg := npMean amounts
    [("user_avg_amount", avg),
     ("user_std_amount", if 1 < amounts.length then sq (npVar amounts) else 0),
     ("user_max_amount", listMax amounts),
     ("user_min_amount", listMin amounts),
     ("amount_vs_avg", t.amount / (avg + 1 / 1000000)),
     ("txns_last_hour",
       ((user_txns.filter (fun u => t.ts - u.ts < 3600)).length : ℚ)),
     ("txns_last_day",
       ((user_txns.filter (fun u => t.ts - u.ts < 86400)).length : ℚ)),
     ("time_since_last_txn", (t.ts - (user_txns.getLastD t).ts) / 3600)]

/-- The merchant-based features of `extract_features`. -/
def merchantFeats (sq : ℚ → ℚ) (W : ℕ) (s : ExtractorState)
    (t : Transaction) : List (String × ℚ) :=
  if truthy t.merchant_id then
    let merchant_txns := s.merchant_history (t.merchant_id.getD "")
    if merchant_txns.isEmpty then
      [("merchant_avg_amount", t.amount), ("merchant_std_amount", 0)]
    else
      let amounts := (pyTail W merchant_txns).map (·.amount)
      [("merchant_avg_amount", npMean amounts),
       ("merchant_std_amount",
         if 1 < amounts.length then sq (npVar amounts) else 0)]
  else
    [("merchant_avg_amount", 0), ("merchant_std_amount", 0)]

/-- The IP-based features of `extract_features`. -/
def ipFeats (s : ExtractorState) (t : Transaction) : List (String × ℚ) :=
  if truthy t.ip_address then
    let ip_txns := s.ip_history (t.ip_address.getD "")
    let unique_users := ((ip_txns.map (·.user_id)).dedup).length
    [("ip_txn_count", (ip_txns.length : ℚ)),
     ("ip_unique_users", (unique_users : ℚ)),
     ("ip_user_ratio", (unique_users : ℚ) / ((ip_txns.length : ℚ) + 1))]
  else
    [("ip_txn_count", 0), ("ip_unique_users", 0), ("ip_user_ratio", 0)]

/-- The read phase of `extract_features` (feature_extractor.py lines
20-101): the feature map computed from the pre-append history snapshots,
in dict insertion order. -/
def featuresOf (sq : ℚ → ℚ) (s : ExtractorState) (t : Transaction) :
    List (String × ℚ) :=
  baseFeats t ++ userFeats sq s.window_size (s.user_history t.user_id) t
    ++ merchantFeats sq s.window_size s t ++ ipFeats s t

/-- The update phase of `extract_features` (feature_extractor.py lines
103-112): append the transaction to its user, merchant and IP sequences,
then trim only the user sequence to the window size. -/
def appendHistories (s : ExtractorState) (t : Transaction) : ExtractorState :=
  let s1 := { s with
    user_history := updateKey s.user_history t.user_id (fun l => l ++ [t]) }
  let s2 := if truthy t.merchant_id then
      { s1 with merchant_history :=
          (updateKey s1.merchant_history (t.merchant_id.getD "")
            (fun l => l ++ [t])) }
    else s1
  let s3 := if truthy t.ip_address then
      { s2 with ip_history :=
          (updateKey s2.ip_history (t.ip_address.getD "")
            (fun l => l ++ [t])) }
    else s2
  { s3 with
    user_history := updateKey s3.user_history t.user_id (pyTail s.window_size) }

/-- The full `FeatureExtractor.extract_features`: compute the features from
the current history state, then update the histories. -/
def extract_features (sq : ℚ → ℚ) (s : ExtractorState) (t : Transaction) :
    List (String × ℚ) × ExtractorState :=
  (featuresOf sq s t, appendHistories s t)

/-- The method `FeatureExtractor.get_feature_names`: the documented ordered
list of the 18 feature names. -/
def get_feature_names : List String :=
  ["amount", "hour_of_day", "day_of_week", "is_weekend",
   "transaction_type", "user_avg_amount", "user_std_amount",
   "user_max_amount", "user_min_amount", "amount_vs_avg",
   "txns_last_hour", "txns_last_day", "time_since_last_txn",
   "merchant_avg_amount", "merchant_std_amount",
   "ip_txn_count", "ip_unique_users", "ip_user_ratio"]

/-- The method `FeatureExtractor.features_to_array`: read the 18 named
features out of the map in fixed order, substituting 0 for a missing key. -/
def features_to_array (f : List (String × ℚ)) : List ℚ :=
  get_feature_names.map (fun n => (f.lookup n).getD 0)

/-- The extractor state after processing a list of transactions. -/
def stateAfter (s : ExtractorState) : List Transaction → ExtractorState
  | [] => s
  | t :: ts => stateAfter (appendHistories s t) ts

/-- The stream of feature maps produced by running `extract_features`
over a list of transactions in order, threading the state. -/
def runAll (sq : ℚ → ℚ) (s : ExtractorState) :
    List Transaction → List (List (String × ℚ))
  | [] => []
  | t :: ts =>
    let r := extract_features sq s t
    r.1 :: runAll sq r.2 ts

/-- The branch of the scorer that produced a score: the three rules of
`PretrainedFraudDetector.predict` in priority order, or the logistic
model path. -/
inductive Trace where
  | ruleHighValueLowHistory
  | ruleVeryHighAmount
  | ruleVelocityAttack
  | logistic
deriving DecidableEq

/-- The scorer `PretrainedFraudDetector.predict` on a feature array,
parametric in
the trained logistic model `ml` (the value of
`model.predict_proba(X)[0][1]`).  Note the substitution
`user_avg = features[5] if features[5] > 0 else 100` performed before the
rules are evaluated. -/
def predict (ml : List ℚ → ℚ) (features : List ℚ) : ℚ × Trace :=
  let amount := features.getD 0 0
  let user_avg := if 0 < features.getD 5 0 then features.getD 5 0 else 100
  let txns_last_hour := features.getD 10 0
  if 0 < user_avg ∧ user_avg * (9 / 10) < amount ∧ 400 < amount then
    let base_risk := min (amount / 1000) (8 / 10)
    let velocity_risk := min (txns_last_hour * (1 / 10)) (3 / 10)
    (min (base_risk + velocity_risk) 1, Trace.ruleHighValueLowHistory)
  else if 700 < amount then
    (85 / 100, Trace.ruleVeryHighAmount)
  else if 5 ≤ txns_last_hour then
    (75 / 100, Trace.ruleVelocityAttack)
  else
    let ml_fraud_prob := ml features
    (if 500 < amount then min (ml_fraud_prob + 3 / 10) 1 else ml_fraud_prob,
     Trace.logistic)

/-- The method `PretrainedFraudDetector.get_risk_level`: probability to risk
band. -/
def get_risk_level (p : ℚ) : String :=
  if p < 3 / 10 then "low"
  else if p < 6 / 10 then "medium"
  else if p < 85 / 100 then "high"
  else "critical"

/-- An enriched result as assembled by the pipeline
(`fraud_result_with_txn` in main.py), restricted to the fields the
verified properties mention. -/
structure EnrichedResult where
  transaction_id : String
  user_id : String
  amount : ℚ
  fraud_probability : ℚ
  risk_level : String
  is_fraud : Bool
  features : List (String × ℚ)
  ai_explanation : Option String
deriving DecidableEq

/-- The main.py constant `MAX_RECENT_RESULTS = 500`. -/
def MAX_RECENT_RESULTS : ℕ := 500

/-- The Recent Ring update of the pipeline: append, then pop the oldest
element when the length exceeds `MAX_RECENT_RESULTS`. -/
def ringAppend (ring : List EnrichedResult) (r : EnrichedResult) :
    List EnrichedResult :=
  let ring1 := ring ++ [r]
  if MAX_RECENT_RESULTS < ring1.length then ring1.drop 1 else ring1

/-- The state threaded through the stream pipeline: the shared extractor
state, the in-memory Recent Ring (oldest first, as the Python list is),
and the sequence of messages published on the results channel. -/
structure PipelineState where
  extractor : ExtractorState
  ring : List EnrichedResult
  published : List EnrichedResult

/-- The enriched result built for one stream event: features, scorer
probability, risk band, threshold comparison, and - when AI reasoning is
enabled and the event is fraud - the optional explanation whose external
outcome is the parameter `explain`. -/
def enrich (sq : ℚ → ℚ) (ml : List ℚ → ℚ) (enable_ai : Bool)
    (explain : Except String String) (threshold : ℚ)
    (ex : ExtractorState) (t : Transaction) : EnrichedResult :=
  let fmap := featuresOf sq ex t
  let p := (predict ml (features_to_array fmap)).1
  let base : EnrichedResult :=
    { transaction_id := t.transaction_id,
      user_id := t.user_id,
      amount := t.amount,
      fraud_probability := p,
      risk_level := get_risk_level p,
      is_fraud := decide (threshold ≤ p),
      features := fmap,
      ai_explanation := none }
  if enable_ai ∧ threshold ≤ p then
    match explain with
    | Except.ok e => { base with ai_explanation := some e }
    | Except.error _ => base
  else base

/-- One iteration of `process_transactions_from_redis` on a decoded
transaction: extract (mutating the histories), score, optionally explain,
attempt persistence (its failure is caught and ignored), append to the
Recent Ring, publish on the results channel. -/
def processEvent (sq : ℚ → ℚ) (ml : List ℚ → ℚ) (enable_ai : Bool)
    (explain : Except String String)
    (persist : EnrichedResult → Except String Unit) (threshold : ℚ)
    (st : PipelineState) (t : Transaction) : PipelineState :=
  let res := enrich sq ml enable_ai explain threshold st.extractor t
  let _db : Unit := match persist res with
    | Except.ok _ => ()
    | Except.error _ => ()
  { extractor := appendHistories st.extractor t,
    ring := ringAppend st.ring res,
    published := st.published ++ [res] }

/-- The in-memory fallback branch of `GET /recent` (main.py lines
312-319): `recent[-limit:] if len(recent) > limit else recent`, the ring
length as `total`, and the echoed `limit`. -/
def get_recent_fallback (ring : List EnrichedResult) (limit : ℕ) :
    List EnrichedResult × ℕ × ℕ :=
  (if limit < ring.length then pyTail limit ring else ring,
   ring.length, limit)

/-- The response of `POST /predict` restricted to the verified fields. -/
structure FraudScoreR where
  transaction_id : String
  fraud_probability : ℚ
  risk_level : String
  is_fraud : Bool
  features : List (String × ℚ)
deriving DecidableEq

/-- The `POST /predict` handler (`predict_fraud` in main.py): it runs
`extract_features` on the shared extractor - thereby mutating the shared
history store - then scores and reports. -/
def predict_fraud (sq : ℚ → ℚ) (ml : List ℚ → ℚ) (threshold : ℚ)
    (ex : ExtractorState) (t : Transaction) : FraudScoreR × ExtractorState :=
  let r := extract_features sq ex t
  let p := (predict ml (features_to_array r.1)).1
  ({ transaction_id := t.transaction_id,
     fraud_probability := p,
     risk_level := get_risk_level p,
     is_fraud := decide (threshold ≤ p),
     features := r.1 }, r.2)

/-- A trivial stand-in square root for concrete evaluations (the verified
properties hold for every square-root routine). -/
def sqZero : ℚ → ℚ := fun _ => 0

/-- A trivial stand-in logistic model for concrete evaluations. -/
def mlZero : List ℚ → ℚ := fun _ => 0

/-- The rule table of the scorer read literally from its documented form:
R1 is guarded by the raw `user_avg_amount` feature (features[5]) being
positive, without any default substitution. -/
def predictRuleTable (ml : List ℚ → ℚ) (features : List ℚ) : ℚ × Trace :=
  let amount := features.getD 0 0
  let user_avg_amount := features.getD 5 0
  let txns_last_hour := features.getD 10 0
  if 0 < user_avg_amount ∧ (9 / 10) * user_avg_amount < amount ∧ 400 < amount
  then
    (min (min (amount / 1000) (8 / 10)
        + min ((1 / 10) * txns_last_hour) (3 / 10)) 1,
     Trace.ruleHighValueLowHistory)
  else if 700 < amount then
    (85 / 100, Trace.ruleVeryHighAmount)
  else if 5 ≤ txns_last_hour then
    (75 / 100, Trace.ruleVelocityAttack)
  else
    (if 500 < amount then min (ml features + 3 / 10) 1 else ml features,
     Trace.logistic)

/-- The rule table amended by the default substitution the code performs:
R1 is evaluated against `S = features[5] if features[5] > 0 else 100`. -/
def predictRuleTableSubst (ml : List ℚ → ℚ) (features : List ℚ) : ℚ × Trace :=
  let amount := features.getD 0 0
  let S := if 0 < features.getD 5 0 then features.getD 5 0 else 100
  let txns_last_hour := features.getD 10 0
  if 0 < S ∧ (9 / 10) * S < amount ∧ 400 < amount then
    (min (min (amount / 1000) (8 / 10)
        + min ((1 / 10) * txns_last_hour) (3 / 10)) 1,
     Trace.ruleHighValueLowHistory)
  else if 700 < amount then
    (85 / 100, Trace.ruleVeryHighAmount)
  else if 5 ≤ txns_last_hour then
    (75 / 100, Trace.ruleVelocityAttack)
  else
    (if 500 < amount then min (ml features + 3 / 10) 1 else ml features,
     Trace.logistic)

/-- An 18-element feature vector whose raw user average (features[5]) is 0
while the amount is 500: here the code substitutes a default average of
100 and fires R1, although the documented R1 guard is false. -/
def vAvgZero : List ℚ :=
  [500, 0, 0, 0, 0, 0, 0, 0, 0, 0, 0, 0, 0, 0, 0, 0, 0, 0]

lemma predict_eq_subst (ml : List ℚ → ℚ) (v : List ℚ) :
    predict ml v = predictRuleTableSubst ml v := by
  simp only [predict, predictRuleTableSubst, mul_comm]


lemma predict_vAvgZero :
    predict mlZero vAvgZero = (1 / 2, Trace.ruleHighValueLowHistory) := by
  norm_num [predict, vAvgZero, mlZero, List.getD, min_def]

lemma predictRuleTable_vAvgZero :
    predictRuleTable mlZero vAvgZero = (0, Trace.logistic) := by
  norm_num [predictRuleTable, vAvgZero, mlZero, List.getD]

/-- C1 counterexample: the claimed rule table is not the scorer.  On the
18-element vector `vAvgZero` (amount 500, raw user average 0,
velocity 0) the code substitutes a default average of 100 and fires R1
with probability 1/2, while the table as claimed reaches the logistic
default. -/
theorem C1_counterexample :
    predict mlZero vAvgZero ≠ predictRuleTable mlZero vAvgZero := by
  rw [predict_vAvgZero, predictRuleTable_vAvgZero]
  intro h
  exact absurd (congrArg Prod.snd h) (by decide)

/-- C1 (amended): for every 18-element feature vector the scorer evaluates
the documented rules in priority order, first match halting, with the
documented outputs - except that R1 is guarded by the substituted average
`S = user_avg_amount if user_avg_amount > 0 else 100` in place of the raw
`user_avg_amount` feature. -/
theorem C1_rule_priority (ml : List ℚ → ℚ) (v : List ℚ)
    (h : v.length = 18) : predict ml v = predictRuleTableSubst ml v :=
  predict_eq_subst ml v

/-- C1 witness: the amended rule table agrees with the scorer on a
concrete 18-element vector. -/
theorem C1_rule_priority_witness :
    vAvgZero.length = 18 ∧
      predict mlZero vAvgZero = predictRuleTableSubst mlZero vAvgZero :=
  ⟨by decide, C1_rule_priority mlZero vAvgZero (by decide)⟩

/-- A prior transaction giving user u1 an average amount of 100. -/
def tPrior : Transaction :=
  ⟨"txn-prior", "u1", 100, "payment", none, none, 0, 10, 2⟩

/-- A later 800-amount transaction of user u1, far outside the one-hour
and one-day velocity windows of `tPrior`. -/
def tHigh : Transaction :=
  ⟨"txn-high", "u1", 800, "payment", none, none, 1000000, 10, 2⟩

/-- The extractor state of scenario 1: a fresh extractor that has
processed only `tPrior`. -/
def c3State : ExtractorState :=
  stateAfter (emptyState feature_window_default) [tPrior]

/-- The feature array of `tHigh` in scenario 1 (prior average 100, amount
800, velocity 0). -/
def c3Arr : List ℚ := features_to_array (featuresOf sqZero c3State tHigh)

lemma c3Arr_eval : c3Arr = [800, 10, 2, 0, 1, 100, 0, 100, 100,
    800000000 / 100000001, 0, 0, 2500 / 9, 0, 0, 0, 0, 0] := by
  simp [c3Arr, c3State, features_to_array, featuresOf, baseFeats,
    userFeats, merchantFeats, ipFeats, get_feature_names, stateAfter,
    appendHistories, emptyState, updateKey, pyTail, npMean, truthy,
    tPrior, tHigh, List.lookup, type_encoding, listMax, listMin,
    feature_window_default]
  norm_num

lemma c3_eval (ml : List ℚ → ℚ) :
    predict ml c3Arr = (4 / 5, Trace.ruleHighValueLowHistory) := by
  rw [c3Arr_eval]
  norm_num [predict, List.getD, min_def]

/-- C3 counterexample: on the documented scenario (prior user average 100,
single new transaction of amount 800, velocity 0) the scorer does not
emit trace rule_very_high_amount with probability 0.85: R1 shadows R2 on
this input. -/
theorem C3_counterexample :
    (predict mlZero c3Arr).2 ≠ Trace.ruleVeryHighAmount ∧
      (predict mlZero c3Arr).1 ≠ 85 / 100 := by
  rw [c3_eval mlZero]
  exact ⟨by decide, by norm_num⟩

/-- C3 (amended): on a user whose prior history has average amount 100, a
single new transaction with amount 800 and velocity 0 fires R1, giving
trace rule_high_value_low_history, probability 0.8, risk band high, and
is_fraud true under the default threshold 0.35. -/
theorem C3_scenario (ml : List ℚ → ℚ) :
    predict ml c3Arr = (4 / 5, Trace.ruleHighValueLowHistory) ∧
      get_risk_level (predict ml c3Arr).1 = "high" ∧
      fraud_threshold_default ≤ (predict ml c3Arr).1 := by
  have h := c3_eval ml
  refine ⟨h, ?_, ?_⟩ <;> rw [h] <;>
    norm_num [get_risk_level, fraud_threshold_default]

lemma runAll_getD (sq : ℚ → ℚ) :
    ∀ (ts : List Transaction) (s : ExtractorState) (i : ℕ) (t0 : Transaction),
      i < ts.length →
      (runAll sq s ts).getD i [] =
        featuresOf sq (stateAfter s (ts.take i)) (ts.getD i t0)
  | [], _, i, _, h => by simp at h
  | t :: ts, s, 0, t0, _ => by
    simp [runAll, extract_features, stateAfter]
  | t :: ts, s, i + 1, t0, h => by
    have h' : i < ts.length := by simpa using h
    simpa [runAll, extract_features, stateAfter] using
      runAll_getD sq ts (appendHistories s t) i t0 h'

/-- C2: when the extractor processes a stream of transactions in order,
the feature map of the i-th transaction is exactly the read-only feature
function applied to the history state built from the strictly earlier
transactions - the extractor snapshots before appending, so the event
itself (and anything later) never enters its own aggregates. -/
theorem C2_features_before_self (sq : ℚ → ℚ) (s : ExtractorState)
    (ts : List Transaction) (i : ℕ) (t0 : Transaction)
    (h : i < ts.length) :
    (runAll sq s ts).getD i [] =
      featuresOf sq (stateAfter s (ts.take i)) (ts.getD i t0) :=
  runAll_getD sq ts s i t0 h

/-- C2 witness: the snapshot-before-append equation evaluated on a
one-transaction stream. -/
theorem C2_features_before_self_witness :
    0 < [tPrior].length ∧
      (runAll sqZero (emptyState 100) [tPrior]).getD 0 [] =
        featuresOf sqZero (stateAfter (emptyState 100) ([tPrior].take 0))
          ([tPrior].getD 0 tPrior) :=
  ⟨by decide,
   C2_features_before_self sqZero (emptyState 100) [tPrior] 0 tPrior
     (by decide)⟩

lemma appendHistories_window (s : ExtractorState) (t : Transaction) :
    (appendHistories s t).window_size = s.window_size := by
  by_cases hm : truthy t.merchant_id <;> by_cases hi : truthy t.ip_address <;>
    simp [appendHistories, hm, hi]

lemma appendHistories_user (s : ExtractorState) (t : Transaction)
    (u : String) :
    (appendHistories s t).user_history u =
      if u = t.user_id then pyTail s.window_size (s.user_history u ++ [t])
      else s.user_history u := by
  by_cases hm : truthy t.merchant_id <;> by_cases hi : truthy t.ip_address <;>
    by_cases hu : u = t.user_id <;>
      simp [appendHistories, updateKey, hm, hi, hu]

lemma appendHistories_merchant (s : ExtractorState) (t : Transaction)
    (k : String) :
    (appendHistories s t).merchant_history k =
      if truthy t.merchant_id ∧ k = t.merchant_id.getD "" then
        s.merchant_history k ++ [t]
      else s.merchant_history k := by
  by_cases hm : truthy t.merchant_id <;> by_cases hi : truthy t.ip_address <;>
    by_cases hk : k = t.merchant_id.getD "" <;>
      simp [appendHistories, updateKey, hm, hi, hk]

lemma appendHistories_ip (s : ExtractorState) (t : Transaction)
    (k : String) :
    (appendHistories s t).ip_history k =
      if truthy t.ip_address ∧ k = t.ip_address.getD "" then
        s.ip_history k ++ [t]
      else s.ip_history k := by
  by_cases hm : truthy t.merchant_id <;> by_cases hi : truthy t.ip_address <;>
    by_cases hk : k = t.ip_address.getD "" <;>
      simp [appendHistories, updateKey, hm, hi, hk]

lemma pyTail_length_le (w : ℕ) (hw : w ≠ 0) (l : List α) :
    (pyTail w l).length ≤ w := by
  simp [pyTail, hw]
  omega

lemma stateAfter_user_bound (W : ℕ) (hW : 0 < W) :
    ∀ (ts : List Transaction) (s : ExtractorState),
      s.window_size = W → (∀ u, (s.user_history u).length ≤ W) →
      ∀ u, ((stateAfter s ts).user_history u).length ≤ W
  | [], _, _, hs, u => hs u
  | t :: ts, s, hws, hs, u => by
    have hws' : (appendHistories s t).window_size = W := by
      rw [appendHistories_window, hws]
    have hs' : ∀ u', ((appendHistories s t).user_history u').length ≤ W := by
      intro u'
      rw [appendHistories_user]
      by_cases hu : u' = t.user_id
      · rw [if_pos hu, hws]
        exact pyTail_length_le W hW.ne' _
      · rw [if_neg hu]
        exact hs u'
    exact stateAfter_user_bound W hW ts (appendHistories s t) hws' hs' u

/-- Two transactions of different users sharing the merchant "m". -/
def tM1 : Transaction :=
  ⟨"txn-m1", "uA", 10, "payment", some "m", none, 0, 0, 0⟩

/-- The second transaction at merchant "m". -/
def tM2 : Transaction :=
  ⟨"txn-m2", "uB", 20, "payment", some "m", none, 10, 0, 0⟩

/-- C4 counterexample: with window capacity 1, after two extract_features
calls for the same merchant the stored merchant sequence has length 2 -
the code never trims the merchant (or IP) histories, only the user
history. -/
theorem C4_counterexample :
    ¬ ((stateAfter (emptyState 1) [tM1, tM2]).merchant_history "m").length
      ≤ 1 := by
  decide

/-- C4 (amended): for the user history mapping the claim holds: with a
positive window capacity W configured at construction, after any sequence
of extract_features calls every stored user sequence has length at most
W, and each append retains only the last W entries (evicting the oldest
past W).  The merchant and IP sequences are not trimmed. -/
theorem C4_user_window (W : ℕ) (hW : 0 < W) (ts : List Transaction)
    (u : String) (s : ExtractorState) (t : Transaction) :
    ((stateAfter (emptyState W) ts).user_history u).length ≤ W ∧
      (appendHistories s t).user_history t.user_id =
        pyTail s.window_size (s.user_history t.user_id ++ [t]) := by
  constructor
  · exact stateAfter_user_bound W hW ts (emptyState W) rfl
      (fun _ => by simp [emptyState]) u
  · rw [appendHistories_user, if_pos rfl]

/-- C4 witness: the user-window bound evaluated at capacity 1 on a
two-transaction stream. -/
theorem C4_user_window_witness :
    0 < 1 ∧
      (((stateAfter (emptyState 1) [tM1, tM2]).user_history "uA").length ≤ 1 ∧
        (appendHistories (emptyState 1) tM1).user_history tM1.user_id =
          pyTail (emptyState 1).window_size
            ((emptyState 1).user_history tM1.user_id ++ [tM1])) :=
  ⟨by decide, C4_user_window 1 (by decide) [tM1, tM2] "uA" (emptyState 1) tM1⟩

/-- The 19 keys of the feature map produced for a user's first-ever
transaction: the 18 documented names with the extra
`is_first_transaction` inserted after `time_since_last_txn`. -/
def first_txn_feature_names : List String :=
  ["amount", "hour_of_day", "day_of_week", "is_weekend",
   "transaction_type", "user_avg_amount", "user_std_amount",
   "user_max_amount", "user_min_amount", "amount_vs_avg",
   "txns_last_hour", "txns_last_day", "time_since_last_txn",
   "is_first_transaction",
   "merchant_avg_amount", "merchant_std_amount",
   "ip_txn_count", "ip_unique_users", "ip_user_ratio"]

lemma featuresOf_keys (sq : ℚ → ℚ) (s : ExtractorState) (t : Transaction) :
    (featuresOf sq s t).map Prod.fst =
      if (s.user_history t.user_id).isEmpty then first_txn_feature_names
      else get_feature_names := by
  by_cases hu : (s.user_history t.user_id).isEmpty <;>
    by_cases hm : truthy t.merchant_id <;>
      by_cases hmm : (s.merchant_history (t.merchant_id.getD "")).isEmpty <;>
        by_cases hi : truthy t.ip_address <;>
          simp [featuresOf, baseFeats, userFeats, merchantFeats, ipFeats,
            get_feature_names, first_txn_feature_names, hu, hm, hmm, hi]

/-- C5 counterexample: on a user's first-ever transaction the extracted
feature map does not have exactly the 18 documented fields - the code
inserts the extra key is_first_transaction. -/
theorem C5_counterexample :
    (featuresOf sqZero (emptyState 100) tPrior).map Prod.fst ≠
      get_feature_names := by
  decide

/-- C5 (amended): for every transaction the extracted feature map carries
the 18 documented fields in the documented order; on a user's first-ever
transaction one extra field is_first_transaction appears after
time_since_last_txn (19 keys in total), and on every other transaction
the keys are exactly the 18 documented ones.  The ordered array built by
features_to_array always has exactly 18 entries. -/
theorem C5_feature_shape (sq : ℚ → ℚ) (s : ExtractorState)
    (t : Transaction) :
    ((featuresOf sq s t).map Prod.fst =
      if (s.user_history t.user_id).isEmpty then first_txn_feature_names
      else get_feature_names) ∧
      (features_to_array (featuresOf sq s t)).length = 18 := by
  refine ⟨featuresOf_keys sq s t, ?_⟩
  simp [features_to_array, get_feature_names]

lemma featuresOf_amount_vs_avg (sq : ℚ → ℚ) (s : ExtractorState)
    (t : Transaction) :
    (featuresOf sq s t).lookup "amount_vs_avg" =
      some (if (s.user_history t.user_id).isEmpty then 1
        else t.amount /
          (npMean ((pyTail s.window_size (s.user_history t.user_id)).map
            (·.amount)) + 1 / 1000000)) := by
  by_cases hu : (s.user_history t.user_id).isEmpty <;>
    simp [featuresOf, baseFeats, userFeats, List.lookup, hu]

/-- A first-ever transaction with amount 0. -/
def tZero : Transaction :=
  ⟨"txn-zero", "uz", 0, "payment", none, none, 0, 0, 0⟩

/-- C6 counterexample: on a user's first transaction the extracted
amount_vs_avg is the constant 1.0, not amount / (user_avg_amount + 1e-6)
with the substituted average: for amount 0 the claimed formula gives 0
while the code stores 1. -/
theorem C6_counterexample :
    (featuresOf sqZero (emptyState 100) tZero).lookup "amount_vs_avg" ≠
      some (tZero.amount / (tZero.amount + 1 / 1000000)) := by
  rw [featuresOf_amount_vs_avg]
  simp [emptyState, tZero]

/-- C6 (amended): for every transaction with a nonempty prior user
history, the extracted amount_vs_avg equals
amount / (user_avg_amount + 1e-6) where user_avg_amount is the mean of
the windowed strictly earlier transactions of the same user; on a user's
first transaction amount_vs_avg is exactly 1.0. -/
theorem C6_amount_vs_avg (sq : ℚ → ℚ) (s : ExtractorState)
    (t : Transaction) :
    (featuresOf sq s t).lookup "amount_vs_avg" =
      some (if (s.user_history t.user_id).isEmpty then 1
        else t.amount /
          (npMean ((pyTail s.window_size (s.user_history t.user_id)).map
            (·.amount)) + 1 / 1000000)) :=
  featuresOf_amount_vs_avg sq s t

/-- C7: the published is_fraud flag of every processed transaction equals
the comparison fraud_probability >= fraud_threshold, and the configured
default threshold is 0.35. -/
theorem C7_is_fraud (sq : ℚ → ℚ) (ml : List ℚ → ℚ) (enable_ai : Bool)
    (explain : Except String String)
    (persist : EnrichedResult → Except String Unit) (threshold : ℚ)
    (st : PipelineState) (t : Transaction) :
    ((processEvent sq ml enable_ai explain persist threshold st
        t).published.getLast?
      = some (enrich sq ml enable_ai explain threshold st.extractor t)) ∧
      ((enrich sq ml enable_ai explain threshold st.extractor t).is_fraud
          = true ↔
        threshold ≤ (enrich sq ml enable_ai explain threshold st.extractor
          t).fraud_probability) ∧
      fraud_threshold_default = 35 / 100 := by
  refine ⟨?_, ?_, rfl⟩
  · simp [processEvent, List.getLast?_concat]
  · rcases explain with e | e <;>
      by_cases hc : (enable_ai = true) ∧ threshold ≤
        (predict ml (features_to_array (featuresOf sq st.extractor t))).1 <;>
        simp [enrich, hc, decide_eq_true_iff]

/-- C8: a failing persistence step changes nothing in the pipeline: the
resulting state is identical for every persistence outcome, the enriched
result still enters the Recent Ring, and it is still published on the
results channel; no error is surfaced. -/
theorem C8_persist_isolated (sq : ℚ → ℚ) (ml : List ℚ → ℚ)
    (enable_ai : Bool) (explain : Except String String)
    (persist persist2 : EnrichedResult → Except String Unit)
    (threshold : ℚ) (st : PipelineState) (t : Transaction) :
    (processEvent sq ml enable_ai explain persist threshold st t =
        processEvent sq ml enable_ai explain persist2 threshold st t) ∧
      ((processEvent sq ml enable_ai explain persist threshold st t).ring =
        ringAppend st.ring
          (enrich sq ml enable_ai explain threshold st.extractor t)) ∧
      ((processEvent sq ml enable_ai explain persist threshold st
          t).published =
        st.published ++
          [enrich sq ml enable_ai explain threshold st.extractor t]) :=
  ⟨rfl, rfl, rfl⟩

/-- An enriched result fixture. -/
def resA : EnrichedResult := ⟨"r1", "u1", 10, 0, "low", false, [], none⟩

/-- A second, distinct enriched result fixture. -/
def resB : EnrichedResult := ⟨"r2", "u2", 20, 0, "low", false, [], none⟩

/-- A third, distinct enriched result fixture (the newest). -/
def resC : EnrichedResult := ⟨"r3", "u3", 30, 0, "low", false, [], none⟩

/-- C9 counterexample: when the in-memory Recent Ring serves the read, the
returned array is in oldest-first order, not newest-first: with ring
[resA, resB, resC] (resC newest) and limit 2 the endpoint returns
[resB, resC], whose first element is not the newest result. -/
theorem C9_counterexample :
    (get_recent_fallback [resA, resB, resC] 2).1 = [resB, resC] ∧
      resB ≠ resC ∧
      (get_recent_fallback [resA, resB, resC] 2).1.head? ≠ some resC := by
  refine ⟨?_, ?_, ?_⟩ <;> decide

/-- C9 (amended): for every read served by the in-memory fallback with
limit N >= 1, the returned array consists of the most recent results, at
most N of them (exactly min(N, size)), as a suffix of the ring - i.e. in
oldest-first order, not newest-first - together with the ring size as
total and the echoed limit. -/
theorem C9_recent_fallback (ring : List EnrichedResult) (limit : ℕ)
    (h : 1 ≤ limit) :
    ((get_recent_fallback ring limit).1.length = min limit ring.length) ∧
      List.IsSuffix ((get_recent_fallback ring limit).1) ring ∧
      ((get_recent_fallback ring limit).2.1 = ring.length) ∧
      ((get_recent_fallback ring limit).2.2 = limit) := by
  have hne : limit ≠ 0 := by omega
  unfold get_recent_fallback
  by_cases hc : limit < ring.length
  · simp only [if_pos hc]
    refine ⟨?_, ?_, by trivial, by trivial⟩
    · simp only [pyTail, if_neg hne, List.length_drop]
      omega
    · simp only [pyTail, if_neg hne]
      exact List.drop_suffix _ _
  · simp only [if_neg hc]
    exact ⟨by omega, List.suffix_refl _, by trivial, by trivial⟩

/-- C9 witness: the fallback read evaluated on a one-element ring with
limit 1. -/
theorem C9_recent_fallback_witness :
    1 ≤ 1 ∧
      (((get_recent_fallback [resA] 1).1.length = min 1 [resA].length) ∧
        List.IsSuffix ((get_recent_fallback [resA] 1).1) [resA] ∧
        ((get_recent_fallback [resA] 1).2.1 = [resA].length) ∧
        ((get_recent_fallback [resA] 1).2.2 = 1)) :=
  ⟨le_refl 1, C9_recent_fallback [resA] 1 (le_refl 1)⟩

lemma featuresOf_ip_txn_count (sq : ℚ → ℚ) (s : ExtractorState)
    (t : Transaction) (h : truthy t.ip_address = true) :
    (featuresOf sq s t).lookup "ip_txn_count" =
      some ((s.ip_history (t.ip_address.getD "")).length : ℚ) := by
  by_cases hu : (s.user_history t.user_id).isEmpty <;>
    by_cases hm : truthy t.merchant_id <;>
      by_cases hmm : (s.merchant_history (t.merchant_id.getD "")).isEmpty <;>
        simp [featuresOf, baseFeats, userFeats, merchantFeats, ipFeats,
          List.lookup, hu, hm, hmm, h]

/-- C10: a call to the manual predict endpoint mutates the shared history
store - the ad-hoc transaction is appended to its user, merchant and IP
sequences - and as a consequence a subsequent transaction from the same
IP extracts a different feature vector (its ip_txn_count differs). -/
theorem C10_predict_mutates (sq : ℚ → ℚ) (ml : List ℚ → ℚ) (threshold : ℚ)
    (ex : ExtractorState) (t tNext : Transaction)
    (hm : truthy t.merchant_id = true) (hi : truthy t.ip_address = true)
    (hsame : tNext.ip_address = t.ip_address) :
    ((predict_fraud sq ml threshold ex t).2.user_history t.user_id =
        pyTail ex.window_size (ex.user_history t.user_id ++ [t])) ∧
      ((predict_fraud sq ml threshold ex t).2.merchant_history
          (t.merchant_id.getD "") =
        ex.merchant_history (t.merchant_id.getD "") ++ [t]) ∧
      ((predict_fraud sq ml threshold ex t).2.ip_history
          (t.ip_address.getD "") =
        ex.ip_history (t.ip_address.getD "") ++ [t]) ∧
      ((featuresOf sq (predict_fraud sq ml threshold ex t).2 tNext).lookup
          "ip_txn_count" ≠
        (featuresOf sq ex tNext).lookup "ip_txn_count") := by
  have h2 : (predict_fraud sq ml threshold ex t).2 = appendHistories ex t :=
    rfl
  have hiN : truthy tNext.ip_address = true := by rw [hsame]; exact hi
  rw [h2]
  refine ⟨?_, ?_, ?_, ?_⟩
  · rw [appendHistories_user, if_pos rfl]
  · rw [appendHistories_merchant, if_pos ⟨hm, rfl⟩]
  · rw [appendHistories_ip, if_pos ⟨hi, rfl⟩]
  · rw [featuresOf_ip_txn_count sq _ tNext hiN,
      featuresOf_ip_txn_count sq ex tNext hiN, hsame,
      appendHistories_ip, if_pos ⟨hi, rfl⟩]
    simp

/-- A manual predict-endpoint transaction with merchant "m" and IP
"ip1". -/
def tManual : Transaction :=
  ⟨"txn-manual", "uw", 50, "payment", some "m", some "ip1", 0, 0, 0⟩

/-- A later stream transaction from the same IP "ip1". -/
def tStream : Transaction :=
  ⟨"txn-stream", "uv", 60, "payment", none, some "ip1", 10, 0, 0⟩

/-- C10 witness: the mutation and its observable effect evaluated on a
fresh extractor and two concrete transactions sharing an IP. -/
theorem C10_predict_mutates_witness :
    truthy tManual.merchant_id = true ∧
      truthy tManual.ip_address = true ∧
      tStream.ip_address = tManual.ip_address ∧
      (((predict_fraud sqZero mlZero fraud_threshold_default (emptyState 100)
            tManual).2.user_history tManual.user_id =
          pyTail (emptyState 100).window_size
            ((emptyState 100).user_history tManual.user_id ++ [tManual])) ∧
        ((predict_fraud sqZero mlZero fraud_threshold_default (emptyState 100)
            tManual).2.merchant_history (tManual.merchant_id.getD "") =
          (emptyState 100).merchant_history (tManual.merchant_id.getD "")
            ++ [tManual]) ∧
        ((predict_fraud sqZero mlZero fraud_threshold_default (emptyState 100)
            tManual).2.ip_history (tManual.ip_address.getD "") =
          (emptyState 100).ip_history (tManual.ip_address.getD "")
            ++ [tManual]) ∧
        ((featuresOf sqZero (predict_fraud sqZero mlZero
            fraud_threshold_default (emptyState 100) tManual).2
            tStream).lookup "ip_txn_count" ≠
          (featuresOf sqZero (emptyState 100) tStream).lookup
            "ip_txn_count")) :=
  ⟨by decide, by decide, rfl,
   C10_predict_mutates sqZero mlZero fraud_threshold_default (emptyState 100)
     tManual tStream (by decide) (by decide) rfl⟩
